import Mathlib

/-!
# Formal model of the Soul-Blueprint service (`src/main.py`)

This file gives a shallow embedding of the pure logic and of the request
orchestration of the single-file FastAPI application, and proves or refutes
the specified properties.

Modelling conventions:
* Python strings are Lean `String`s. `str.isdigit` and the per-character
  `int()` conversion are modelled on the character repertoire documented at
  `pyDecimalVal` and `pyDigitNonDecimal`: `isdigit` holds for decimal digits
  (which `int()` converts to their value) and for digit-typed characters with
  no decimal value, such as SUPERSCRIPT TWO, on which `int()` raises
  `ValueError`.
* Python's unbounded `while` loop in `calculate_life_path` is embedded as a
  well-founded recursion on the running digit sum.
* External effects (HTTP call, PDF write, SMTP session) are modelled by
  explicit request/event values produced by the embedded functions; the
  provider's response is an explicit parameter.
-/

namespace SoulBlueprint

/-- Numeric value of an ASCII digit character, used by the integer-literal
parser (`pythonInt`) below. -/
def charDigitVal (c : Char) : Nat := c.toNat - 48

/-- Is `lo ≤ n` and `n ≤ hi`? -/
def inRange (lo hi n : Nat) : Bool := decide (lo ≤ n) && decide (n ≤ hi)

/-- Base code points of the decimal-digit (Unicode general category Nd) runs
of the Basic Multilingual Plane; each run is DIGIT ZERO .. DIGIT NINE. -/
def ndBases : List Nat :=
  [0x30, 0x660, 0x6F0, 0x7C0, 0x966, 0x9E6, 0xA66, 0xAE6, 0xB66, 0xBE6,
   0xC66, 0xCE6, 0xD66, 0xDE6, 0xE50, 0xED0, 0xF20, 0x1040, 0x1090, 0x17E0,
   0x1810, 0x1946, 0x19D0, 0x1A80, 0x1A90, 0x1B50, 0x1BB0, 0x1C40, 0x1C50,
   0xA620, 0xA8D0, 0xA900, 0xA9D0, 0xA9F0, 0xAA50, 0xABF0, 0xFF10]

/-- The decimal value with which `int(d)` succeeds on a single character:
`some (codepoint - run base)` for a character inside a decimal-digit run
(e.g. `'5' ↦ 5`, ARABIC-INDIC DIGIT FIVE `↦ 5`), `none` otherwise. Scope of
the model: the BMP decimal runs listed in `ndBases`; code points outside them
are treated as non-decimal. -/
def pyDecimalVal (c : Char) : Option Nat :=
  (ndBases.find? (fun b => inRange b (b + 9) c.toNat)).map (fun b => c.toNat - b)

/-- Characters with Unicode `Numeric_Type=Digit` but no decimal value: on
these, `str.isdigit` is true yet `int()` raises `ValueError`. Scope of the
model: the Latin-1 superscripts, the superscripts-and-subscripts block, and
the enclosed-digit runs of the enclosed-alphanumerics and dingbats blocks. -/
def pyDigitNonDecimal (c : Char) : Bool :=
  c.toNat == 0xB2 || c.toNat == 0xB3 || c.toNat == 0xB9 || c.toNat == 0x2070 ||
  inRange 0x2074 0x2079 c.toNat || inRange 0x2080 0x2089 c.toNat ||
  inRange 0x2460 0x2468 c.toNat || inRange 0x2474 0x247C c.toNat ||
  inRange 0x2488 0x2490 c.toNat || inRange 0x24F5 0x24FD c.toNat ||
  inRange 0x2776 0x277E c.toNat || inRange 0x2780 0x2788 c.toNat ||
  inRange 0x278A 0x2792 c.toNat

/-- Python's `str.isdigit` on one character: true for decimal digits and for
digit-typed characters carrying no decimal value. -/
def pyIsDigit (c : Char) : Bool :=
  (pyDecimalVal c).isSome || pyDigitNonDecimal c

/-- `[int(d) for d in cs]`: left-to-right conversion of the already-filtered
characters; `none` models the `ValueError` that `int()` raises on the first
digit-typed character without a decimal value. -/
def intMap : List Char → Option (List Nat)
  | [] => some []
  | c :: rest =>
    match pyDecimalVal c with
    | none => none
    | some v => (intMap rest).map (fun vs => v :: vs)

/-- `digits = [int(d) for d in birth_date if d.isdigit()]` from
`calculate_life_path`; `none` models the comprehension raising `ValueError`. -/
def extractDigits (s : String) : Option (List Nat) :=
  intMap (s.data.filter pyIsDigit)

/-- Decimal digits of `n`, most significant first, as produced by Python
`str(n)` for positive `n`; exact when `fuel ≥ n`. -/
def pyDigitsAux : Nat → Nat → List Nat
  | _, 0 => []
  | 0, _ + 1 => []
  | fuel + 1, n + 1 => pyDigitsAux fuel ((n + 1) / 10) ++ [(n + 1) % 10]

/-- `[int(d) for d in str(n)]`: decimal digits of `n`, most significant first,
with `str(0) = "0"` giving `[0]`. -/
def pyDigits (n : Nat) : List Nat := if n = 0 then [0] else pyDigitsAux n n

theorem pyDigitsAux_eq (fuel : Nat) :
    ∀ n, n ≤ fuel → pyDigitsAux fuel n = (Nat.digits 10 n).reverse := by
  induction fuel with
  | zero =>
    intro n hn
    have : n = 0 := Nat.le_zero.mp hn
    subst this
    simp [pyDigitsAux]
  | succ f ih =>
    intro n hn
    match n with
    | 0 => simp [pyDigitsAux]
    | m + 1 =>
      have hdiv : (m + 1) / 10 ≤ f := by
        have h2 : (m + 1) / 10 < m + 1 := Nat.div_lt_self (Nat.succ_pos m) (by norm_num)
        omega
      simp only [pyDigitsAux]
      rw [ih _ hdiv, Nat.digits_def' (by norm_num : (1 : Nat) < 10) (Nat.succ_pos m)]
      simp

theorem pyDigits_sum (n : Nat) : (pyDigits n).sum = (Nat.digits 10 n).sum := by
  unfold pyDigits
  split
  · next h => subst h; simp
  · next h =>
      rw [pyDigitsAux_eq n n le_rfl, List.sum_reverse]

theorem digits_sum_lt (n : Nat) (h : 10 ≤ n) : (Nat.digits 10 n).sum < n := by
  rw [Nat.digits_def' (by norm_num : (1 : Nat) < 10) (by omega : 0 < n)]
  have h1 : (Nat.digits 10 (n / 10)).sum ≤ n / 10 := Nat.digit_sum_le 10 (n / 10)
  have h2 : 1 ≤ n / 10 := (Nat.one_le_div_iff (by norm_num)).mpr h
  have h3 : n % 10 + 10 * (n / 10) = n := Nat.mod_add_div n 10
  simp only [List.sum_cons]
  omega

theorem ofDigits_eq_zero_of_sum_eq_zero (L : List Nat) (h : L.sum = 0) :
    Nat.ofDigits 10 L = 0 := by
  induction L with
  | nil => simp [Nat.ofDigits]
  | cons a t ih =>
    simp only [List.sum_cons, Nat.add_eq_zero] at h
    rw [Nat.ofDigits_cons, h.1, ih h.2]

theorem digits_sum_pos (n : Nat) (h : 0 < n) : 0 < (Nat.digits 10 n).sum := by
  by_contra hc
  push_neg at hc
  have hz : (Nat.digits 10 n).sum = 0 := by omega
  have h0 := ofDigits_eq_zero_of_sum_eq_zero _ hz
  rw [Nat.ofDigits_digits] at h0
  omega

theorem pyDigits_sum_lt (n : Nat) (h : 10 ≤ n) : (pyDigits n).sum < n := by
  rw [pyDigits_sum]; exact digits_sum_lt n h

theorem pyDigits_sum_pos (n : Nat) (h : 0 < n) : 0 < (pyDigits n).sum := by
  rw [pyDigits_sum]; exact digits_sum_pos n h

/-- The loop of `calculate_life_path`:
`while sum(digits) > 9 and sum(digits) not in [11, 22, 33]:
   digits = [int(d) for d in str(sum(digits))]`, returning the final list. -/
def reduceDigits (ds : List Nat) : List Nat :=
  if h : 9 < ds.sum ∧ ds.sum ≠ 11 ∧ ds.sum ≠ 22 ∧ ds.sum ≠ 33 then
    reduceDigits (pyDigits ds.sum)
  else ds
termination_by ds.sum
decreasing_by exact pyDigits_sum_lt ds.sum (by omega)

/-- `calculate_life_path` from `src/main.py`: extract the digits (which can
raise `ValueError` on an isdigit-true non-decimal character), run the
reduction loop, and return the final sum; `none` is the propagating error. -/
def calculate_life_path (birth_date : String) : Option Nat :=
  (extractDigits birth_date).map (fun digits => (reduceDigits digits).sum)

theorem reduceDigits_eq (ds : List Nat) :
    reduceDigits ds =
      if 9 < ds.sum ∧ ds.sum ≠ 11 ∧ ds.sum ≠ 22 ∧ ds.sum ≠ 33 then
        reduceDigits (pyDigits ds.sum)
      else ds := by
  rw [reduceDigits]
  by_cases hc : 9 < ds.sum ∧ ds.sum ≠ 11 ∧ ds.sum ≠ 22 ∧ ds.sum ≠ 33
  · rw [dif_pos hc, if_pos hc]
  · rw [dif_neg hc, if_neg hc]

theorem reduceDigits_post (ds : List Nat) :
    (reduceDigits ds).sum ≤ 9 ∨ (reduceDigits ds).sum = 11 ∨
      (reduceDigits ds).sum = 22 ∨ (reduceDigits ds).sum = 33 := by
  rw [reduceDigits_eq]
  split
  · next h => exact reduceDigits_post (pyDigits ds.sum)
  · next h => omega
termination_by ds.sum
decreasing_by exact pyDigits_sum_lt ds.sum (by omega)

theorem reduceDigits_sum_pos (ds : List Nat) (h0 : 0 < ds.sum) :
    0 < (reduceDigits ds).sum := by
  rw [reduceDigits_eq]
  split
  · next h => exact reduceDigits_sum_pos (pyDigits ds.sum) (pyDigits_sum_pos ds.sum (by omega))
  · next h => exact h0
termination_by ds.sum
decreasing_by exact pyDigits_sum_lt ds.sum (by omega)

theorem pyIsDigit_of_decimal (c : Char) (v : Nat) (h : pyDecimalVal c = some v) :
    pyIsDigit c = true := by
  simp [pyIsDigit, h]

theorem intMap_total (l : List Char) (h : ∀ c ∈ l, (pyDecimalVal c).isSome = true) :
    ∃ vs, intMap l = some vs := by
  induction l with
  | nil => exact ⟨[], rfl⟩
  | cons a t ih =>
    obtain ⟨v, hv⟩ := Option.isSome_iff_exists.mp (h a (List.mem_cons_self a t))
    obtain ⟨vs, hvs⟩ := ih (fun x hx => h x (List.mem_cons_of_mem a hx))
    exact ⟨v :: vs, by simp [intMap, hv, hvs]⟩

theorem intMap_mem (l : List Char) : ∀ (vs : List Nat) (c : Char) (v : Nat),
    intMap l = some vs → c ∈ l → pyDecimalVal c = some v → v ∈ vs := by
  induction l with
  | nil => intro vs c v _ hc _; cases hc
  | cons a t ih =>
    intro vs c v hl hc hv
    cases hd : pyDecimalVal a with
    | none => simp [intMap, hd] at hl
    | some w =>
      cases ht : intMap t with
      | none => simp [intMap, hd, ht] at hl
      | some ws =>
        simp only [intMap, hd, ht, Option.map_some', Option.some.injEq] at hl
        subst hl
        rcases List.mem_cons.mp hc with heq | hmem
        · subst heq
          rw [hd] at hv
          injection hv with hv
          exact hv ▸ List.mem_cons_self _ _
        · exact List.mem_cons_of_mem _ (ih ws c v ht hmem hv)

/-- C1 (amended): for every string whose isdigit-true characters all carry a
decimal value and which contains at least one decimal digit of nonzero value,
`calculate_life_path` returns a value in {1..9, 11, 22, 33}. -/
theorem calculate_life_path_mem_range (s : String)
    (h1 : ∀ c ∈ s.data, pyIsDigit c = true → (pyDecimalVal c).isSome = true)
    (h2 : ∃ c ∈ s.data, ∃ v, pyDecimalVal c = some v ∧ 0 < v) :
    ∃ n, calculate_life_path s = some n ∧
      n ∈ [1, 2, 3, 4, 5, 6, 7, 8, 9, 11, 22, 33] := by
  obtain ⟨c, hc, v, hv, hvpos⟩ := h2
  have hcf : c ∈ s.data.filter pyIsDigit :=
    List.mem_filter.mpr ⟨hc, pyIsDigit_of_decimal c v hv⟩
  obtain ⟨ds, hds⟩ := intMap_total (s.data.filter pyIsDigit)
    (fun x hx => h1 x (List.mem_filter.mp hx).1 (List.mem_filter.mp hx).2)
  have hvmem : v ∈ ds := intMap_mem _ ds c v hds hcf hv
  have hsum : 0 < ds.sum :=
    lt_of_lt_of_le hvpos (List.single_le_sum (fun x _ => Nat.zero_le x) _ hvmem)
  have hpos := reduceDigits_sum_pos ds hsum
  have hpost := reduceDigits_post ds
  refine ⟨(reduceDigits ds).sum, ?_, ?_⟩
  · unfold calculate_life_path extractDigits
    rw [hds]
    rfl
  · simp only [List.mem_cons, List.not_mem_nil, or_false]
    omega

/-- Witness for C1 (amended) at the spec's own example `"2024-01-01"`. -/
theorem calculate_life_path_mem_range_witness :
    ∃ n, calculate_life_path "2024-01-01" = some n ∧
      n ∈ [1, 2, 3, 4, 5, 6, 7, 8, 9, 11, 22, 33] :=
  calculate_life_path_mem_range "2024-01-01" (by decide)
    ⟨'2', by decide, 2, by decide, by decide⟩

/-- C1 counterexample, in two parts: `"0"` contains a decimal digit yet
returns 0, outside {1..9, 11, 22, 33}; and `"²5"` contains the nonzero
decimal digit `'5'` yet returns no value at all, because `int()` raises
`ValueError` on the isdigit-true SUPERSCRIPT TWO. -/
theorem calculate_life_path_range_counterexample :
    ((∃ c ∈ "0".data, pyIsDigit c = true) ∧
        calculate_life_path "0" = some 0 ∧
        (0 : Nat) ∉ [1, 2, 3, 4, 5, 6, 7, 8, 9, 11, 22, 33]) ∧
      ((∃ c ∈ "²5".data, pyDecimalVal c = some 5) ∧
        calculate_life_path "²5" = none) := by
  have he : extractDigits "0" = some [0] := by decide
  have hr : reduceDigits [0] = [0] := by rw [reduceDigits_eq]; norm_num
  have h0 : calculate_life_path "0" = some 0 := by
    simp [calculate_life_path, he, hr]
  exact ⟨⟨⟨'0', by decide, by decide⟩, h0, by decide⟩,
    ⟨'5', by decide, by decide⟩, by decide⟩

/-- C7: a string on which the isdigit filter selects nothing yields `0` (the
empty digit sum already satisfies the stopping condition) without failing. -/
theorem calculate_life_path_no_digits (s : String)
    (h : ∀ c ∈ s.data, pyIsDigit c = false) :
    calculate_life_path s = some 0 := by
  have hf : s.data.filter pyIsDigit = [] := by
    rw [List.filter_eq_nil_iff]
    intro c hc
    simp [h c hc]
  have he : extractDigits s = some [] := by
    unfold extractDigits
    rw [hf]
    rfl
  have hr : reduceDigits [] = [] := by rw [reduceDigits_eq]; norm_num
  simp [calculate_life_path, he, hr]

/-- Witness for C7 on a digit-free string. -/
theorem calculate_life_path_no_digits_witness :
    calculate_life_path "no digits here" = some 0 :=
  calculate_life_path_no_digits "no digits here" (by decide)

/-- Fuel-bounded executable form of the reduction loop, used to state
termination: `none` means the loop was still running when fuel ran out. -/
def runReduce : Nat → List Nat → Option (List Nat)
  | 0, _ => none
  | fuel + 1, ds =>
    if 9 < ds.sum ∧ ds.sum ≠ 11 ∧ ds.sum ≠ 22 ∧ ds.sum ≠ 33 then
      runReduce fuel (pyDigits ds.sum)
    else some ds

theorem runReduce_complete (fuel : Nat) :
    ∀ ds : List Nat, ds.sum < fuel → runReduce fuel ds = some (reduceDigits ds) := by
  induction fuel with
  | zero => intro ds h; omega
  | succ f ih =>
    intro ds h
    rw [reduceDigits_eq]
    simp only [runReduce]
    by_cases hc : 9 < ds.sum ∧ ds.sum ≠ 11 ∧ ds.sum ≠ 22 ∧ ds.sum ≠ 33
    · rw [if_pos hc, if_pos hc]
      exact ih _ (by have := pyDigits_sum_lt ds.sum (by omega); omega)
    · rw [if_neg hc, if_neg hc]

/-- C8 counterexample: `"²"` — SUPERSCRIPT TWO is isdigit-true but carries no
decimal value, so the digit comprehension calls `int('²')`, which raises
`ValueError`: `calculate_life_path` fails rather than returning. -/
theorem calculate_life_path_total_counterexample :
    "²".data.any pyIsDigit = true ∧ calculate_life_path "²" = none := by
  exact ⟨by decide, by decide⟩

/-- C8 (amended): on every string whose isdigit-true characters all carry a
decimal value — in particular on every ASCII string, well-formed date or not —
digit extraction succeeds without error and the reduction loop terminates
within a digit-sum fuel bound, returning the loop's final sum. -/
theorem calculate_life_path_total_on_decimal (s : String)
    (h : ∀ c ∈ s.data, pyIsDigit c = true → (pyDecimalVal c).isSome = true) :
    ∃ ds r, extractDigits s = some ds ∧ runReduce (ds.sum + 1) ds = some r ∧
      calculate_life_path s = some r.sum := by
  obtain ⟨ds, hds⟩ := intMap_total (s.data.filter pyIsDigit)
    (fun x hx => h x (List.mem_filter.mp hx).1 (List.mem_filter.mp hx).2)
  refine ⟨ds, reduceDigits ds, hds,
    runReduce_complete _ _ (Nat.lt_succ_self _), ?_⟩
  unfold calculate_life_path extractDigits
  rw [hds]
  rfl

/-- Witness for C8 (amended) at the spec's example `"1989-11-29"`. -/
theorem calculate_life_path_total_on_decimal_witness :
    ∃ ds r, extractDigits "1989-11-29" = some ds ∧
      runReduce (ds.sum + 1) ds = some r ∧
      calculate_life_path "1989-11-29" = some r.sum :=
  calculate_life_path_total_on_decimal "1989-11-29" (by decide)

/-! ## Human-design classifier (`basic_hd_logic`) -/

/-- ASCII whitespace stripped by Python's `int(str)` conversion. -/
def isPySpace (c : Char) : Bool :=
  c = ' ' || c = '\t' || c = '\n' || c = '\r' || c.toNat = 11 || c.toNat = 12

/-- Strip leading and trailing whitespace, as `int()` does before parsing. -/
def pyStrip (l : List Char) : List Char :=
  ((l.dropWhile isPySpace).reverse.dropWhile isPySpace).reverse

/-- After the first digit, an integer literal body is digits optionally
separated by single underscores (Python 3 grouping underscores). -/
def digitsTail : List Char → Bool
  | [] => true
  | '_' :: c :: rest => c.isDigit && digitsTail rest
  | c :: rest => c.isDigit && digitsTail rest

/-- A valid unsigned integer literal body for Python's `int()`. -/
def validIntBody (l : List Char) : Bool :=
  match l with
  | [] => false
  | c :: rest => c.isDigit && digitsTail rest

/-- Decimal value of a digit string, most significant first. -/
def digitsToNat (l : List Char) : Nat :=
  l.foldl (fun a c => 10 * a + charDigitVal c) 0

/-- Python's `int(s)` on a string: strip whitespace, optional sign, then a
digit body with optional grouping underscores; `none` models `ValueError`.
(ASCII digits and whitespace; the repository only feeds it ASCII.) -/
def pythonInt (s : String) : Option Int :=
  match pyStrip s.data with
  | '+' :: rest =>
    if validIntBody rest then
      some ((digitsToNat (rest.filter (fun c => c ≠ '_')) : Nat) : Int)
    else none
  | '-' :: rest =>
    if validIntBody rest then
      some (-((digitsToNat (rest.filter (fun c => c ≠ '_')) : Nat) : Int))
    else none
  | rest =>
    if validIntBody rest then
      some ((digitsToNat (rest.filter (fun c => c ≠ '_')) : Nat) : Int)
    else none

/-- `birth_time.split(":")[0]`: the segment before the first colon. -/
def hourSegment (s : String) : String :=
  ⟨s.data.takeWhile (fun c => c ≠ ':')⟩

/-- The `{"type": ..., "authority": ...}` result of `basic_hd_logic`. -/
structure HumanDesign where
  type : String
  authority : String
deriving DecidableEq, Repr

/-- `basic_hd_logic` from `src/main.py`: parse the hour before the first `":"`
with `int()` (a failed parse raises `ValueError`, modelled as `.error`), then
bucket it. -/
def basic_hd_logic (birth_time : String) : Except String HumanDesign :=
  match pythonInt (hourSegment birth_time) with
  | none =>
    .error ("invalid literal for int() with base 10: " ++ hourSegment birth_time)
  | some hour =>
    if 6 ≤ hour ∧ hour < 12 then .ok ⟨"Generator", "Sacral"⟩
    else if 12 ≤ hour ∧ hour < 18 then .ok ⟨"Projector", "Emotional"⟩
    else if 18 ≤ hour ∧ hour < 22 then .ok ⟨"Manifestor", "Splenic"⟩
    else .ok ⟨"Reflector", "Lunar"⟩

/-- C2: for an in-range parsed hour, each half-open bucket characterises the
returned classification, with hours 6, 12, 18, 22 left-inclusive. -/
theorem basic_hd_logic_buckets (t : String) (h : Int)
    (h1 : pythonInt (hourSegment t) = some h) (h2 : 0 ≤ h) (h3 : h ≤ 23) :
    (basic_hd_logic t = .ok ⟨"Generator", "Sacral"⟩ ↔ 6 ≤ h ∧ h < 12) ∧
    (basic_hd_logic t = .ok ⟨"Projector", "Emotional"⟩ ↔ 12 ≤ h ∧ h < 18) ∧
    (basic_hd_logic t = .ok ⟨"Manifestor", "Splenic"⟩ ↔ 18 ≤ h ∧ h < 22) ∧
    (basic_hd_logic t = .ok ⟨"Reflector", "Lunar"⟩ ↔
      (22 ≤ h ∧ h < 24) ∨ (0 ≤ h ∧ h < 6)) := by
  unfold basic_hd_logic
  rw [h1]
  dsimp only
  have hsplit : (6 ≤ h ∧ h < 12) ∨ (12 ≤ h ∧ h < 18) ∨ (18 ≤ h ∧ h < 22) ∨
      (¬(6 ≤ h ∧ h < 12) ∧ ¬(12 ≤ h ∧ h < 18) ∧ ¬(18 ≤ h ∧ h < 22)) := by omega
  rcases hsplit with hcase | hcase | hcase | ⟨hn1, hn2, hn3⟩
  · rw [if_pos hcase]
    refine ⟨?_, ?_, ?_, ?_⟩ <;> constructor <;> intro hx <;>
      first | rfl | omega | (exfalso; omega) | (simp at hx)
  · rw [if_neg (by omega : ¬(6 ≤ h ∧ h < 12)), if_pos hcase]
    refine ⟨?_, ?_, ?_, ?_⟩ <;> constructor <;> intro hx <;>
      first | rfl | omega | (exfalso; omega) | (simp at hx)
  · rw [if_neg (by omega : ¬(6 ≤ h ∧ h < 12)), if_neg (by omega : ¬(12 ≤ h ∧ h < 18)),
      if_pos hcase]
    refine ⟨?_, ?_, ?_, ?_⟩ <;> constructor <;> intro hx <;>
      first | rfl | omega | (exfalso; omega) | (simp at hx)
  · rw [if_neg hn1, if_neg hn2, if_neg hn3]
    refine ⟨?_, ?_, ?_, ?_⟩ <;> constructor <;> intro hx <;>
      first | rfl | omega | (exfalso; omega) | (simp at hx)

/-- Witness for C2 at the spec's example `"09:30"` (hour 9 → Generator/Sacral). -/
theorem basic_hd_logic_buckets_witness :
    basic_hd_logic "09:30" = .ok ⟨"Generator", "Sacral"⟩ := by
  have h := basic_hd_logic_buckets "09:30" 9 (by decide) (by decide) (by decide)
  exact h.1.mpr (by decide)

/-- C5: `basic_hd_logic` fails exactly when the segment before the first `":"`
does not parse as an integer; it never substitutes a default classification. -/
theorem basic_hd_logic_error_iff (t : String) :
    (∃ msg, basic_hd_logic t = .error msg) ↔ pythonInt (hourSegment t) = none := by
  unfold basic_hd_logic
  cases hp : pythonInt (hourSegment t) with
  | none => simp
  | some hour =>
    simp only [iff_false, not_exists, reduceCtorEq]
    intro msg
    split_ifs <;> simp

/-- C10: a parsed hour outside [0, 24) does not fail — it falls into the
final `else` bucket and classifies as Reflector/Lunar. -/
theorem basic_hd_logic_out_of_range (t : String) (h : Int)
    (h1 : pythonInt (hourSegment t) = some h) (h2 : h < 0 ∨ 24 ≤ h) :
    basic_hd_logic t = .ok ⟨"Reflector", "Lunar"⟩ := by
  unfold basic_hd_logic
  rw [h1]
  dsimp only
  rw [if_neg (by omega : ¬(6 ≤ h ∧ h < 12)), if_neg (by omega : ¬(12 ≤ h ∧ h < 18)),
    if_neg (by omega : ¬(18 ≤ h ∧ h < 22))]

/-- Witness for C10 at hour 25 (`"25:00"`). -/
theorem basic_hd_logic_out_of_range_witness :
    basic_hd_logic "25:00" = .ok ⟨"Reflector", "Lunar"⟩ :=
  basic_hd_logic_out_of_range "25:00" 25 (by decide) (by decide)

/-! ## Astrology client (`get_astrology_data`) -/

/-- A nested provider-response object that may carry a `"sign"` field. -/
structure SignInfo where
  sign : Option String
deriving DecidableEq, Repr

/-- The JSON body of the provider response: each planet key may be absent. -/
structure AstroBody where
  sun : Option SignInfo
  moon : Option SignInfo
  ascendant : Option SignInfo
deriving DecidableEq, Repr

/-- The provider's HTTP response: status code plus parsed JSON body. -/
structure AstroResponse where
  status_code : Nat
  body : AstroBody
deriving DecidableEq, Repr

/-- The mapped `{sun_sign, moon_sign, rising_sign}` result. -/
structure AstrologyData where
  sun_sign : String
  moon_sign : String
  rising_sign : String
deriving DecidableEq, Repr

/-- `data.get(key, {}).get("sign", "Unknown")`. -/
def getSign (o : Option SignInfo) : String :=
  ((o.getD ⟨none⟩).sign).getD "Unknown"

/-- The outbound POST request `requests.post(ASTRO_API_URL, json=payload,
headers=headers)` — payload fields plus the Authorization header. -/
structure AstroHttpRequest where
  url : String
  birth_date : String
  birth_time : String
  location : String
  timezone : String
  authorization : String
deriving DecidableEq, Repr

/-- Python rendering of an optional environment value inside an f-string:
`f"Bearer {None}"` prints `"Bearer None"`. -/
def pyFormatOpt : Option String → String
  | some s => s
  | none => "None"

/-- `get_astrology_data` from `src/main.py`. `ASTRO_API_KEY = os.getenv(...)`
is the (possibly absent) configured key; the provider's response is an explicit
parameter. The request is always constructed and sent; a non-200 status raises
`Exception("Failed to fetch astrology data.")`, modelled as `.error`. -/
def get_astrology_data (astro_api_key : Option String)
    (birth_date birth_time birth_place : String) (resp : AstroResponse) :
    AstroHttpRequest × Except String AstrologyData :=
  ({ url := "https://api.astroapi.dev/api/v1/planets",
     birth_date := birth_date, birth_time := birth_time,
     location := birth_place, timezone := "auto",
     authorization := "Bearer " ++ pyFormatOpt astro_api_key },
   if resp.status_code = 200 then
     .ok { sun_sign := getSign resp.body.sun,
           moon_sign := getSign resp.body.moon,
           rising_sign := getSign resp.body.ascendant }
   else .error "Failed to fetch astrology data.")

/-- C6: on a 200 response the client succeeds, returning each present sign
verbatim and the literal `"Unknown"` for each absent one. -/
theorem get_astrology_data_success (key : Option String)
    (bd bt bp : String) (resp : AstroResponse) (h : resp.status_code = 200) :
    ∃ a, (get_astrology_data key bd bt bp resp).snd = .ok a ∧
      (∀ s, resp.body.sun = some ⟨some s⟩ → a.sun_sign = s) ∧
      ((resp.body.sun = none ∨ resp.body.sun = some ⟨none⟩) → a.sun_sign = "Unknown") ∧
      (∀ s, resp.body.moon = some ⟨some s⟩ → a.moon_sign = s) ∧
      ((resp.body.moon = none ∨ resp.body.moon = some ⟨none⟩) → a.moon_sign = "Unknown") ∧
      (∀ s, resp.body.ascendant = some ⟨some s⟩ → a.rising_sign = s) ∧
      ((resp.body.ascendant = none ∨ resp.body.ascendant = some ⟨none⟩) →
        a.rising_sign = "Unknown") := by
  refine ⟨{ sun_sign := getSign resp.body.sun, moon_sign := getSign resp.body.moon,
            rising_sign := getSign resp.body.ascendant }, ?_, ?_, ?_, ?_, ?_, ?_, ?_⟩
  · simp [get_astrology_data, h]
  all_goals
    first
      | (intro s hs; simp [getSign, hs])
      | (rintro (hs | hs) <;> simp [getSign, hs])

/-- Witness for C6: a 200 response with the `"moon"` field missing yields the
provided sun/rising signs and `moon_sign = "Unknown"`. -/
theorem get_astrology_data_success_witness :
    ∃ a, (get_astrology_data none "2024-01-01" "09:30" "Paris"
        ⟨200, ⟨some ⟨some "Aries"⟩, none, some ⟨some "Leo"⟩⟩⟩).snd = .ok a ∧
      a.sun_sign = "Aries" ∧ a.moon_sign = "Unknown" ∧ a.rising_sign = "Leo" := by
  obtain ⟨a, ha, c1, _, _, c4, c5, _⟩ :=
    get_astrology_data_success none "2024-01-01" "09:30" "Paris"
      ⟨200, ⟨some ⟨some "Aries"⟩, none, some ⟨some "Leo"⟩⟩⟩ rfl
  exact ⟨a, ha, c1 "Aries" rfl, c4 (Or.inl rfl), c5 "Leo" rfl⟩

/-! ## Report renderer, notifier and request handler -/

/-- The rendering context dictionary passed to the template. -/
structure RenderData where
  name : String
  sun_sign : String
  moon_sign : String
  rising : String
  hd_type : String
  authority : String
  life_path : Option Nat
deriving DecidableEq, Repr

/-- `name.replace(' ', '_')`: for a one-character pattern Python's `replace`
is a character-wise substitution. -/
def replaceSpaces (s : String) : String :=
  ⟨s.data.map (fun c => if c = ' ' then '_' else c)⟩

/-- `render_pdf_from_template` from `src/main.py`, modelled as the output path
it deterministically derives (template rendering and the PDF write are
filesystem effects outside the model and are assumed to succeed). -/
def render_pdf_from_template (data : RenderData) : String :=
  "reports/" ++ replaceSpaces data.name ++ "_soul_blueprint.pdf"

/-- One step of the SMTP session of `send_email_with_attachment`. -/
inductive SmtpAction where
  | connect (host : String) (port : Nat)
  | login (user password : Option String)
  | sendMessage
deriving DecidableEq, Repr

/-- `os.path.basename`: the component after the last `/`. -/
def basename (p : String) : String :=
  ⟨(p.data.reverse.takeWhile (fun c => c ≠ '/')).reverse⟩

/-- The message assembled by `send_email_with_attachment`. -/
structure EmailMessageModel where
  subject : String
  from_addr : Option String
  to_addr : String
  body : String
  attachment_filename : String
deriving DecidableEq, Repr

/-- `send_email_with_attachment` from `src/main.py`: the credentials are read
from the environment (possibly absent) with no presence check, the message is
built, and an SMTP-SSL session is opened to smtp.gmail.com:465, logs in with
whatever the environment held, and sends on login success (`loginOk` models the
server's verdict). Returned value: the message and the session's action trace. -/
def send_email_with_attachment (email_address email_password : Option String)
    (to_email subject body attachment_path : String) (loginOk : Bool) :
    EmailMessageModel × List SmtpAction :=
  ({ subject := subject, from_addr := email_address, to_addr := to_email,
     body := body, attachment_filename := basename attachment_path },
   [SmtpAction.connect "smtp.gmail.com" 465,
    SmtpAction.login email_address email_password] ++
     (if loginOk then [SmtpAction.sendMessage] else []))

/-- The observable steps of one `generate_blueprint` request, in order. -/
inductive Step where
  | computeLifePath
  | callAstrology
  | computeHumanDesign
  | renderPdf
  | sendEmail
deriving DecidableEq, Repr

/-- The HTTP-level outcome of the endpoint: 200 JSON body, or
`HTTPException(status_code=500, detail=str(e))`. -/
inductive HandlerResult where
  | ok (message : String) (pdf_path : String)
  | httpError (status : Nat) (detail : String)
deriving DecidableEq, Repr

/-- The request body `SoulInput` (pydantic model). -/
structure SoulInput where
  name : String
  birth_date : String
  birth_time : String
  birth_place : String
  email : Option String
deriving DecidableEq, Repr

/-- Python truthiness of `input_data.email`: `None` and `""` are falsy. -/
def pyTruthy : Option String → Bool
  | none => false
  | some s => !s.data.isEmpty

/-- `generate_blueprint` from `src/main.py`, with the statement order of the
source: life path, astrology call, human design, render, optional email.
Any raised exception is caught and returned as a 500 with `str(e)`. The PDF
write and the email send are modelled as succeeding. The life-path value is
stored as the optional result of `calculate_life_path`: the `ValueError` an
isdigit-true non-decimal character would raise on line 95 is settled at the
function level and is not re-raised here, so the handler traces describe the
requests for which a provider response exists — the domain the explicit
`resp` parameter presumes. Returns the ordered step trace alongside the
HTTP result. -/
def generate_blueprint (astro_api_key : Option String) (input_data : SoulInput)
    (resp : AstroResponse) : List Step × HandlerResult :=
  let life_path := calculate_life_path input_data.birth_date
  match (get_astrology_data astro_api_key input_data.birth_date
      input_data.birth_time input_data.birth_place resp).snd with
  | .error e => ([Step.computeLifePath, Step.callAstrology], .httpError 500 e)
  | .ok astrology =>
    match basic_hd_logic input_data.birth_time with
    | .error e =>
      ([Step.computeLifePath, Step.callAstrology, Step.computeHumanDesign],
       .httpError 500 e)
    | .ok human_design =>
      let pdf_path := render_pdf_from_template
        { name := input_data.name,
          sun_sign := astrology.sun_sign,
          moon_sign := astrology.moon_sign,
          rising := astrology.rising_sign,
          hd_type := human_design.type,
          authority := human_design.authority,
          life_path := life_path }
      if pyTruthy input_data.email then
        ([Step.computeLifePath, Step.callAstrology, Step.computeHumanDesign,
          Step.renderPdf, Step.sendEmail],
         .ok "Blueprint generated and sent" pdf_path)
      else
        ([Step.computeLifePath, Step.callAstrology, Step.computeHumanDesign,
          Step.renderPdf],
         .ok "Blueprint generated and sent" pdf_path)

theorem generate_blueprint_trace (key : Option String) (inp : SoulInput)
    (resp : AstroResponse) :
    (generate_blueprint key inp resp).fst =
        [Step.computeLifePath, Step.callAstrology] ∨
      (generate_blueprint key inp resp).fst =
        [Step.computeLifePath, Step.callAstrology, Step.computeHumanDesign] ∨
      (generate_blueprint key inp resp).fst =
        [Step.computeLifePath, Step.callAstrology, Step.computeHumanDesign,
          Step.renderPdf] ∨
      (generate_blueprint key inp resp).fst =
        [Step.computeLifePath, Step.callAstrology, Step.computeHumanDesign,
          Step.renderPdf, Step.sendEmail] := by
  simp only [generate_blueprint]
  cases hA : (get_astrology_data key inp.birth_date inp.birth_time
      inp.birth_place resp).snd with
  | error e => simp
  | ok astrology =>
    cases hH : basic_hd_logic inp.birth_time with
    | error e => simp
    | ok human_design =>
      by_cases hE : pyTruthy inp.email <;> simp [hE]

/-- C3 (amended): for every request the life-path number is computed before
the astrology client is invoked, but the human-design classification is
computed only after the astrology call, and before the renderer; the notifier,
when reached, comes last. -/
theorem generate_blueprint_step_order (key : Option String) (inp : SoulInput)
    (resp : AstroResponse) :
    ((generate_blueprint key inp resp).fst.indexOf Step.computeLifePath <
        (generate_blueprint key inp resp).fst.indexOf Step.callAstrology) ∧
      (Step.computeHumanDesign ∈ (generate_blueprint key inp resp).fst →
        (generate_blueprint key inp resp).fst.indexOf Step.callAstrology <
          (generate_blueprint key inp resp).fst.indexOf Step.computeHumanDesign) ∧
      (Step.renderPdf ∈ (generate_blueprint key inp resp).fst →
        (generate_blueprint key inp resp).fst.indexOf Step.computeHumanDesign <
          (generate_blueprint key inp resp).fst.indexOf Step.renderPdf) ∧
      (Step.sendEmail ∈ (generate_blueprint key inp resp).fst →
        (generate_blueprint key inp resp).fst.indexOf Step.renderPdf <
          (generate_blueprint key inp resp).fst.indexOf Step.sendEmail) := by
  rcases generate_blueprint_trace key inp resp with ht | ht | ht | ht <;>
    rw [ht] <;>
    refine ⟨by decide, ?_, ?_, ?_⟩ <;> intro hm <;>
    first | decide | exact absurd hm (by decide)

/-- Witness for C3 (amended) on a full successful request with email. -/
theorem generate_blueprint_step_order_witness :
    ((generate_blueprint none ⟨"Ada", "2024-01-01", "09:30", "Paris",
          some "ada@example.com"⟩ ⟨200, ⟨none, none, none⟩⟩).fst.indexOf
        Step.computeLifePath <
      (generate_blueprint none ⟨"Ada", "2024-01-01", "09:30", "Paris",
          some "ada@example.com"⟩ ⟨200, ⟨none, none, none⟩⟩).fst.indexOf
        Step.callAstrology) ∧
    ((generate_blueprint none ⟨"Ada", "2024-01-01", "09:30", "Paris",
          some "ada@example.com"⟩ ⟨200, ⟨none, none, none⟩⟩).fst.indexOf
        Step.callAstrology <
      (generate_blueprint none ⟨"Ada", "2024-01-01", "09:30", "Paris",
          some "ada@example.com"⟩ ⟨200, ⟨none, none, none⟩⟩).fst.indexOf
        Step.computeHumanDesign) ∧
    ((generate_blueprint none ⟨"Ada", "2024-01-01", "09:30", "Paris",
          some "ada@example.com"⟩ ⟨200, ⟨none, none, none⟩⟩).fst.indexOf
        Step.computeHumanDesign <
      (generate_blueprint none ⟨"Ada", "2024-01-01", "09:30", "Paris",
          some "ada@example.com"⟩ ⟨200, ⟨none, none, none⟩⟩).fst.indexOf
        Step.renderPdf) ∧
    ((generate_blueprint none ⟨"Ada", "2024-01-01", "09:30", "Paris",
          some "ada@example.com"⟩ ⟨200, ⟨none, none, none⟩⟩).fst.indexOf
        Step.renderPdf <
      (generate_blueprint none ⟨"Ada", "2024-01-01", "09:30", "Paris",
          some "ada@example.com"⟩ ⟨200, ⟨none, none, none⟩⟩).fst.indexOf
        Step.sendEmail) := by
  have h := generate_blueprint_step_order none
    ⟨"Ada", "2024-01-01", "09:30", "Paris", some "ada@example.com"⟩
    ⟨200, ⟨none, none, none⟩⟩
  exact ⟨h.1, h.2.1 (by decide), h.2.2.1 (by decide), h.2.2.2 (by decide)⟩

/-- C3 counterexample: on a successful request the human-design classification
is computed strictly after the astrology client is invoked, refuting the
claimed Reducer + Classifier → Astrology Client ordering. -/
theorem generate_blueprint_order_counterexample :
    ¬ ((generate_blueprint none ⟨"Ada", "2024-01-01", "09:30", "Paris", none⟩
          ⟨200, ⟨none, none, none⟩⟩).fst.indexOf Step.computeHumanDesign <
        (generate_blueprint none ⟨"Ada", "2024-01-01", "09:30", "Paris", none⟩
          ⟨200, ⟨none, none, none⟩⟩).fst.indexOf Step.callAstrology) := by
  decide

/-- C4: a non-200 provider response makes the whole request fail with the
generic provider error surfaced as a 500, and the renderer is never invoked. -/
theorem generate_blueprint_provider_failure (key : Option String)
    (inp : SoulInput) (resp : AstroResponse) (h : resp.status_code ≠ 200) :
    (generate_blueprint key inp resp).snd =
        .httpError 500 "Failed to fetch astrology data." ∧
      Step.renderPdf ∉ (generate_blueprint key inp resp).fst := by
  have hA : (get_astrology_data key inp.birth_date inp.birth_time
      inp.birth_place resp).snd = .error "Failed to fetch astrology data." := by
    simp [get_astrology_data, h]
  simp only [generate_blueprint]
  rw [hA]
  dsimp only
  exact ⟨rfl, by decide⟩

/-- Witness for C4 at a concrete 404 provider response. -/
theorem generate_blueprint_provider_failure_witness :
    (generate_blueprint none ⟨"Ada", "2024-01-01", "09:30", "Paris", none⟩
          ⟨404, ⟨none, none, none⟩⟩).snd =
        .httpError 500 "Failed to fetch astrology data." ∧
      Step.renderPdf ∉ (generate_blueprint none
          ⟨"Ada", "2024-01-01", "09:30", "Paris", none⟩
          ⟨404, ⟨none, none, none⟩⟩).fst :=
  generate_blueprint_provider_failure none
    ⟨"Ada", "2024-01-01", "09:30", "Paris", none⟩ ⟨404, ⟨none, none, none⟩⟩
    (by decide)

/-- C9 counterexample: with the astrology API key absent from the environment,
the handler does not fail fast — it still invokes the astrology client (the
outbound request is made with header `"Bearer None"`) and the request succeeds. -/
theorem config_fail_fast_counterexample :
    Step.callAstrology ∈ (generate_blueprint none
        ⟨"Ada", "2024-01-01", "09:30", "Paris", none⟩
        ⟨200, ⟨none, none, none⟩⟩).fst ∧
      (get_astrology_data none "2024-01-01" "09:30" "Paris"
          ⟨200, ⟨none, none, none⟩⟩).fst.authorization = "Bearer None" ∧
      (generate_blueprint none ⟨"Ada", "2024-01-01", "09:30", "Paris", none⟩
          ⟨200, ⟨none, none, none⟩⟩).snd =
        .ok "Blueprint generated and sent" "reports/Ada_soul_blueprint.pdf" := by
  exact ⟨by decide, rfl, by decide⟩

/-- C9 (amended): no fail-fast exists — with every secret absent, the
astrology request is still issued (authorization header `"Bearer None"`) and
the SMTP session still opens a connection to the server before any use of the
absent credentials. -/
theorem missing_secrets_still_contact_services (inp : SoulInput)
    (resp : AstroResponse) (to_email subject body attachment_path : String)
    (loginOk : Bool) :
    Step.callAstrology ∈ (generate_blueprint none inp resp).fst ∧
      (get_astrology_data none inp.birth_date inp.birth_time inp.birth_place
          resp).fst.authorization = "Bearer None" ∧
      (send_email_with_attachment none none to_email subject body
          attachment_path loginOk).snd.head? =
        some (SmtpAction.connect "smtp.gmail.com" 465) := by
  refine ⟨?_, rfl, rfl⟩
  rcases generate_blueprint_trace none inp resp with ht | ht | ht | ht <;>
    rw [ht] <;> decide

end SoulBlueprint
